import Mathlib

/-!
Shallow embedding of the record store and lifecycle operations of
server.py (essay coaching service).  Records are the JSON documents
produced by build_schema; the persisted collection lives in one file
whose possible observable conditions are modelled by FileState.
Effects (clock, uuid source, the external feedback generator, request
bodies) are passed as explicit arguments.
-/

namespace AiCoaching

/-- The metadata block of build_schema (server.py, lines 188-196). -/
structure Metadata where
  schema_version : String
  created_at : String
  updated_at : String
  language : String
  grade : String
  semester : String
  subject : String
deriving DecidableEq, Repr

/-- The lesson_context block of build_schema (lines 197-202). -/
structure LessonContext where
  lesson_id : String
  text_title : String
  text_description : String
  achievement_standards_2015 : List String
deriving DecidableEq, Repr

/-- The process block of build_schema (lines 203-207): the stable id,
the lifecycle status string and the step counter. -/
structure ProcessInfo where
  process_id : String
  status : String
  current_step : Nat
deriving DecidableEq, Repr

/-- The student_essay block of build_schema (lines 208-213). -/
structure StudentEssay where
  essay_id : String
  prompt : String
  student_answer : String
  submitted_at : String
deriving DecidableEq, Repr

/-- One scored dimension of the evaluation block (lines 216-219). -/
structure Dimension where
  scale : Nat
  value : Int
  comment : String
deriving DecidableEq, Repr

/-- The evaluation block of build_schema (lines 214-221). -/
structure Evaluation where
  vocabulary : Dimension
  grammar : Dimension
  logic : Dimension
  empathy : Dimension
deriving DecidableEq, Repr

/-- The ai_feedback block of build_schema (lines 222-231); final_feedback
and approved_at are absent until the approve operation adds them
(lines 339-341). -/
structure AiFeedback where
  model_name : String
  created_at : String
  prompt_template_id : String
  ai_draft_feedback : String
  ai_feedback_type : String
  ai_feedback_tags : List String
  achievement_explanation : String
  revised_text : String
  final_feedback : Option String
  approved_at : Option String
deriving DecidableEq, Repr

/-- The teacher_correction block written by approve_essay (lines 326-334);
absent until the first approval. -/
structure TeacherCorrection where
  teacher_id : String
  corrected_at : String
  teacher_final_feedback : String
  ai_draft_feedback : String
deriving DecidableEq, Repr

/-- The report_status block written by send_report (lines 380-388);
each flag and timestamp is absent until first set. -/
structure ReportStatus where
  student_sent : Option Bool
  student_sent_at : Option String
  parent_sent : Option Bool
  parent_sent_at : Option String
deriving DecidableEq, Repr

/-- One persisted record (the spec's Record): the JSON document built by
build_schema, possibly extended later by approve_essay and send_report. -/
structure Record where
  metadata : Metadata
  lesson_context : LessonContext
  process : ProcessInfo
  student_essay : StudentEssay
  evaluation : Evaluation
  ai_feedback : Option AiFeedback
  teacher_correction : Option TeacherCorrection
  lesson_feedback : Option String
  report_status : Option ReportStatus
deriving DecidableEq, Repr

/-- The scores dict parsed out of the generator response
(call_openai_for_feedback, line 168); keys may be absent, so each
dimension is optional and build_schema supplies the defaults. -/
structure Scores where
  vocabulary : Option Int
  grammar : Option Int
  logic : Option Int
  empathy : Option Int
deriving DecidableEq, Repr

/-- The process id minted at line 184 and at line 449:
proc_{utcnow:%Y%m%d_%H%M%S}_{uuid4.hex[:6]}.  The timestamp part and the
uuid part are explicit inputs (clock and randomness oracles). -/
def mkProcessId (ts_compact uuid6 : String) : String :=
  "proc_" ++ ts_compact ++ "_" ++ uuid6

/-- Python str.strip() with no argument: drop unicode whitespace from
both ends (used on the text field at line 444 and on the feedback
fields at lines 301 and 336). -/
def pyStrip (s : String) : String :=
  ⟨((s.data.dropWhile Char.isWhitespace).reverse.dropWhile Char.isWhitespace).reverse⟩

/-- The initial lifecycle status written by build_schema at line 205
(the status the spec names drafted). -/
def draftedStatus : String := "ai_drafted"

/-- The terminal lifecycle status written by approve_essay at line 322
(the spec's completed). -/
def completedStatus : String := "completed"

/-- build_schema (lines 173-234): assembles a fresh Record from the
student text, the generator output and the loaded criteria.  now_iso,
ts_compact and the two uuid fragments stand for the datetime.utcnow()
and uuid4() calls at lines 183-185. -/
def buildSchema (student_text feedback_text achievement_explanation revised_text : String)
    (scores : Scores) (achievement_2015 text_description : String)
    (now_iso ts_compact proc_uuid6 essay_uuid8 : String) : Record :=
  { metadata :=
      { schema_version := "1.0.0"
        created_at := now_iso
        updated_at := now_iso
        language := "ko"
        grade := "초등학교 5학년"
        semester := "2학기"
        subject := "국어" }
    lesson_context :=
      { lesson_id := "S1_초등_5_국어_TXT_012230"
        text_title := text_description
        text_description := text_description
        achievement_standards_2015 := [achievement_2015] }
    process :=
      { process_id := mkProcessId ts_compact proc_uuid6
        status := draftedStatus
        current_step := 3 }
    student_essay :=
      { essay_id := "ESSAY_" ++ essay_uuid8
        prompt := "지문을 읽고, 자신과 생각이나 처지가 다른 사람과 어떻게 대화하면 좋을지 느낀 점을 써 보세요."
        student_answer := student_text
        submitted_at := now_iso }
    evaluation :=
      { vocabulary := { scale := 5, value := scores.vocabulary.getD 3, comment := "" }
        grammar := { scale := 5, value := scores.grammar.getD 3, comment := "" }
        logic := { scale := 5, value := scores.logic.getD 3, comment := "" }
        empathy := { scale := 5, value := scores.empathy.getD 4, comment := "" } }
    ai_feedback := some
      { model_name := "gpt-4o-mini"
        created_at := now_iso
        prompt_template_id := "empathetic_feedback_v3"
        ai_draft_feedback := feedback_text
        ai_feedback_type := "3단 구성 공감적 피드백"
        ai_feedback_tags := ["공감", "경청", "존중", "긍정 강화", "성취기준 기반 조언", "심화 질문"]
        achievement_explanation := achievement_explanation
        revised_text := revised_text
        final_feedback := none
        approved_at := none }
    teacher_correction := none
    lesson_feedback := none
    report_status := none }

/-- A successfully parsed store file is either a JSON array of documents
or a single non-array document (the isinstance(data, list) test at
line 247 distinguishes the two). -/
inductive ParsedDoc (α : Type) : Type
  | arrayDoc (items : List α)
  | singleDoc (item : α)
deriving DecidableEq, Repr

/-- The observable condition of the schema.json file at the resolved
store path: absent, present but unopenable, present but not valid JSON,
or a parsed document. -/
inductive FileState (α : Type) : Type
  | missing
  | unreadable
  | corrupt
  | parsed (doc : ParsedDoc α)
deriving DecidableEq, Repr

/-- _read_essays_locked (lines 240-250): missing file gives the empty
list; any open or parse failure is swallowed and gives the empty list;
a parsed array gives its items; a parsed non-array document d gives the
one-element list containing d. -/
def readEssaysLocked {α : Type} : FileState α → List α
  | .missing => []
  | .unreadable => []
  | .corrupt => []
  | .parsed (.arrayDoc items) => items
  | .parsed (.singleDoc item) => [item]

/-- _write_essays_locked (lines 253-256): replaces the whole file with
the serialized list of essays. -/
def writeEssaysLocked {α : Type} (essays : List α) : FileState α :=
  .parsed (.arrayDoc essays)

/-- _append_essay_safe (lines 259-269): inside the lock, read the
current collection, append the new schema, write the whole collection
back. -/
def appendEssaySafe (s : FileState Record) (schema : Record) : FileState Record :=
  writeEssaysLocked (readEssaysLocked s ++ [schema])

/-- GET /api/essays (get_essays, lines 282-292): read the collection
under the lock and return it. -/
def getEssays (s : FileState Record) : List Record :=
  readEssaysLocked s

theorem read_write_roundtrip {α : Type} (l : List α) :
    readEssaysLocked (writeEssaysLocked l) = l := rfl

/-- C8: readAll never raises: an absent store file yields the empty
collection, and an unreadable or unparseable file is swallowed and
likewise treated as empty. -/
theorem read_all_swallows_missing_and_corrupt :
    getEssays .missing = [] ∧
    getEssays .unreadable = [] ∧
    getEssays .corrupt = [] :=
  ⟨rfl, rfl, rfl⟩

/-- C10: a store file that parses as valid JSON whose top-level value is
not an array is returned as a one-element collection holding that single
document, not treated as corrupt. -/
theorem read_all_wraps_single_doc (d : Record) :
    getEssays (.parsed (.singleDoc d)) = [d] := rfl

/-- The linear scan of approve_essay and send_report
(next((i for i, e in enumerate(essays) if e.process.process_id == pid), None),
lines 314-318 and 372-376). -/
def findEssayIdx (pid : String) : List Record → Option Nat
  | [] => none
  | e :: rest =>
    if e.process.process_id = pid then some 0
    else (findEssayIdx pid rest).map (· + 1)

/-- In-place mutation of the essay at a given index
(essays[essay_index] updates in approve_essay and send_report). -/
def modifyIdx {α : Type} (f : α → α) : Nat → List α → List α
  | _, [] => []
  | 0, a :: rest => f a :: rest
  | n + 1, a :: rest => a :: modifyIdx f n rest

/-- The in-place mutation approve_essay applies to the located essay
(lines 322-341): status completed, step 5, updated_at stamped, the
teacher_correction block (re)written with a snapshot of the AI draft
feedback, lesson_feedback stored, and final_feedback plus approved_at
added to ai_feedback when that block exists. -/
def approveMutate (now_iso final_feedback lesson_feedback : String) (r : Record) : Record :=
  { r with
    process := { r.process with status := completedStatus, current_step := 5 }
    metadata := { r.metadata with updated_at := now_iso }
    teacher_correction := some
      { teacher_id := "t_001"
        corrected_at := now_iso
        teacher_final_feedback := final_feedback
        ai_draft_feedback := (r.ai_feedback.map (fun af => af.ai_draft_feedback)).getD "" }
    lesson_feedback := some lesson_feedback
    ai_feedback := r.ai_feedback.map (fun af =>
      { af with final_feedback := some final_feedback, approved_at := some now_iso }) }

/-- Outcome of POST /api/essays/approve as the caller observes it. -/
inductive ApproveResult : Type
  | missingProcessId
  | emptyFeedback
  | notFound
  | approved (process_id : String)
deriving DecidableEq, Repr

/-- approve_essay (lines 295-346): validate the request fields, then
under the lock read the collection, scan for the process id, and either
abort with notFound without writing, or mutate the located essay in
place and write the whole collection back.  The request fields are the
raw JSON body values (absent keys are none); now_iso stands for the
datetime.utcnow() call at line 309. -/
def approveEssay (process_id final_feedback lesson_feedback : Option String)
    (now_iso : String) (s : FileState Record) : ApproveResult × FileState Record :=
  let pid := process_id.getD ""
  let fb := pyStrip (final_feedback.getD "")
  if pid = "" then (.missingProcessId, s)
  else if fb = "" then (.emptyFeedback, s)
  else
    let essays := readEssaysLocked s
    match findEssayIdx pid essays with
    | none => (.notFound, s)
    | some i =>
      let lf := pyStrip (lesson_feedback.getD "")
      (.approved pid, writeEssaysLocked (modifyIdx (approveMutate now_iso fb lf) i essays))

/-- The two recognized report kinds (line 363). -/
inductive ReportType : Type
  | student
  | parent
deriving DecidableEq, Repr

/-- The report_type field check of send_report (line 363):
only the strings student and parent are accepted. -/
def parseReportType : Option String → Option ReportType
  | some "student" => some .student
  | some "parent" => some .parent
  | _ => none

/-- The in-place mutation send_report applies to the located essay
(lines 380-390): ensure the report_status block exists, set the flag and
timestamp of the requested kind, and stamp updated_at. -/
def sendReportMutate (report_type : ReportType) (now_iso : String) (r : Record) : Record :=
  let rs := r.report_status.getD
    { student_sent := none, student_sent_at := none, parent_sent := none, parent_sent_at := none }
  let rs2 :=
    match report_type with
    | .student => { rs with student_sent := some true, student_sent_at := some now_iso }
    | .parent => { rs with parent_sent := some true, parent_sent_at := some now_iso }
  { r with
    report_status := some rs2
    metadata := { r.metadata with updated_at := now_iso } }

/-- Outcome of POST /api/essays/send-report as the caller observes it. -/
inductive SendReportResult : Type
  | missingProcessId
  | invalidReportType
  | notFound
  | sent (process_id : String)
deriving DecidableEq, Repr

/-- send_report (lines 353-394): validate the request fields, then under
the lock read the collection, scan for the process id, and either abort
with notFound without writing, or set the requested report flag on the
located essay and write the whole collection back. -/
def sendReport (process_id report_type : Option String)
    (now_iso : String) (s : FileState Record) : SendReportResult × FileState Record :=
  let pid := process_id.getD ""
  if pid = "" then (.missingProcessId, s)
  else
    match parseReportType report_type with
    | none => (.invalidReportType, s)
    | some rt =>
      let essays := readEssaysLocked s
      match findEssayIdx pid essays with
      | none => (.notFound, s)
      | some i =>
        (.sent pid, writeEssaysLocked (modifyIdx (sendReportMutate rt now_iso) i essays))

/-- The unit of background work submit schedules: the stripped student
text and the process id minted before the thread was started
(threading.Thread target and args, lines 452-456). -/
structure BackgroundTask where
  text : String
  process_id : String
deriving DecidableEq, Repr

/-- Outcome of POST /submit as the caller observes it: either the
validation failure, or the minted id together with the scheduled (and
not yet executed) background task. -/
inductive SubmitResult : Type
  | emptyText
  | accepted (process_id : String) (task : BackgroundTask)
deriving DecidableEq, Repr

/-- submit (lines 439-459): strip the incoming text (an absent or null
field reads as the empty string), reject empty text with a 400, else
mint the process id from the clock and uuid oracles, schedule the
background task, and return the id at once; the store is untouched on
both paths. -/
def submit (text : Option String) (ts_compact proc_uuid6 : String)
    (s : FileState Record) : SubmitResult × FileState Record :=
  let t := pyStrip (text.getD "")
  if t = "" then (.emptyText, s)
  else
    let pid := mkProcessId ts_compact proc_uuid6
    (.accepted pid { text := t, process_id := pid }, s)

/-- The structured output of the external feedback generator after
parsing (call_openai_for_feedback return value, lines 165-170). -/
structure Enrichment where
  feedback_text : String
  achievement_explanation : String
  revised_text : String
  scores : Scores
deriving DecidableEq, Repr

/-- The record a successful background run appends: the build_schema
output with its process_id overwritten by the id minted in submit
(line 426). -/
def backgroundSchema (task : BackgroundTask) (criteria : String × String)
    (enr : Enrichment) (now_iso ts_compact proc_uuid6 essay_uuid8 : String) : Record :=
  let schema := buildSchema task.text enr.feedback_text enr.achievement_explanation
    enr.revised_text enr.scores criteria.1 criteria.2 now_iso ts_compact proc_uuid6 essay_uuid8
  { schema with process := { schema.process with process_id := task.process_id } }

/-- process_essay_in_background (lines 401-436): on any failure of the
criteria load or the generator call (gen = none) the task terminates
appending nothing; on success it builds the schema, overwrites its
process_id with the id minted by submit, and appends it under the lock.
criteria carries the loaded (achievement_2015, text_description) pair;
now_iso, ts_compact and the uuid fragments feed build_schema. -/
def processEssayInBackground (task : BackgroundTask) (criteria : String × String)
    (gen : Option Enrichment) (now_iso ts_compact proc_uuid6 essay_uuid8 : String)
    (s : FileState Record) : FileState Record :=
  match gen with
  | none => s
  | some enr =>
    appendEssaySafe s (backgroundSchema task criteria enr now_iso ts_compact proc_uuid6 essay_uuid8)

/-- The studentReportSent flag of the spec: the student_sent field of
the report_status block, absent until first set. -/
def studentReportSent (r : Record) : Option Bool :=
  r.report_status.bind (fun rs => rs.student_sent)

/-- The parentReportSent flag of the spec. -/
def parentReportSent (r : Record) : Option Bool :=
  r.report_status.bind (fun rs => rs.parent_sent)

/-- The timestamp stamped when the student report is marked sent. -/
def studentReportSentAt (r : Record) : Option String :=
  r.report_status.bind (fun rs => rs.student_sent_at)

/-- State of the process while background append tasks compete for
_schema_lock (line 38): the store file, the multiset of tasks (the
schemas each completed background run is about to append) that have not
yet entered the critical section, and the current lock holder, if any,
carrying the snapshot its _read_essays_locked call returned when it
acquired the lock (line 266) together with the schema it will append. -/
structure LockState where
  file : FileState Record
  pending : List Record
  holder : Option (List Record × Record)
deriving DecidableEq, Repr

/-- One observable event of the locking discipline of _append_essay_safe
(lines 264-268): a task acquires the free lock and immediately reads the
collection, or the lock holder appends its schema, writes the collection
back and releases the lock. -/
inductive StepLabel : Type
  | acquire (r : Record)
  | release
deriving DecidableEq, Repr

/-- Transition relation of the lock model.  acquire r succeeds only when
no task holds the lock and r is still pending: the acquiring task reads
the current collection under the lock.  release succeeds only for the
holder: it writes snapshot plus its schema back and frees the lock.  No
step lets any task read or write the file without holding the lock. -/
def step (s : LockState) : StepLabel → Option LockState
  | .acquire r =>
    if s.holder = none ∧ r ∈ s.pending then
      some { file := s.file, pending := s.pending.erase r,
             holder := some (readEssaysLocked s.file, r) }
    else none
  | .release =>
    match s.holder with
    | some (snap, r) =>
      some { file := writeEssaysLocked (snap ++ [r]), pending := s.pending, holder := none }
    | none => none

/-- Run a schedule: the sequence of lock events, in whatever order the
competing threads happen to win the lock. -/
def run (s : LockState) : List StepLabel → Option LockState
  | [] => some s
  | l :: ls => (step s l).bind (fun s2 => run s2 ls)

/-- Initial state for n concurrent append tasks against an initially
empty store: no file yet, all tasks pending, lock free. -/
def initState (tasks : List Record) : LockState :=
  { file := .missing, pending := tasks, holder := none }

/-- Invariant: the holder's snapshot is exactly the current file
contents — nobody can write between its read and its write, because the
write path also requires the lock. -/
def holderOk (s : LockState) : Prop :=
  ∀ snap r, s.holder = some (snap, r) → snap = readEssaysLocked s.file

/-- Every schema in the system, wherever it currently lives: already in
the file, held by the lock owner, or still pending. -/
def collected (s : LockState) : List Record :=
  readEssaysLocked s.file ++ (s.holder.map Prod.snd).toList ++ s.pending

theorem step_preserves {s s2 : LockState} {l : StepLabel}
    (hstep : step s l = some s2) (hok : holderOk s) :
    holderOk s2 ∧ List.Perm (collected s2) (collected s) := by
  cases l with
  | acquire r =>
    by_cases hcond : s.holder = none ∧ r ∈ s.pending
    · obtain ⟨hnone, hmem⟩ := hcond
      simp only [step, if_pos (And.intro hnone hmem)] at hstep
      obtain rfl := Option.some.inj hstep
      refine ⟨?_, ?_⟩
      · intro snap r2 h2
        simp only [Option.some.injEq, Prod.mk.injEq] at h2
        exact h2.1.symm
      · have hperm : List.Perm (r :: s.pending.erase r) s.pending :=
          (List.perm_cons_erase hmem).symm
        have h3 := hperm.append_left (readEssaysLocked s.file)
        simp only [collected, hnone, Option.map_some, Option.toList_some,
          Option.map_none, Option.toList_none, List.append_nil]
        simpa [List.append_assoc] using h3
    · simp only [step, if_neg hcond] at hstep
      cases hstep
  | release =>
    match hh : s.holder with
    | none =>
      simp only [step, hh] at hstep
      cases hstep
    | some (snap, r) =>
      simp only [step, hh] at hstep
      obtain rfl := Option.some.inj hstep
      have hsnap : snap = readEssaysLocked s.file := hok snap r hh
      subst hsnap
      refine ⟨?_, ?_⟩
      · intro snap2 r2 h2
        exact Option.noConfusion h2
      · have heq : collected ⟨writeEssaysLocked (readEssaysLocked s.file ++ [r]),
            s.pending, none⟩ = collected s := by
          unfold collected
          rw [hh]
          simp [readEssaysLocked, writeEssaysLocked, List.append_assoc]
        rw [heq]

theorem run_preserves {sched : List StepLabel} {s s2 : LockState}
    (hrun : run s sched = some s2) (hok : holderOk s) :
    holderOk s2 ∧ List.Perm (collected s2) (collected s) := by
  induction sched generalizing s with
  | nil =>
    simp only [run] at hrun
    obtain ⟨rfl⟩ := Option.some.inj hrun
    exact ⟨hok, List.Perm.refl _⟩
  | cons l ls ih =>
    simp only [run, Option.bind_eq_bind] at hrun
    obtain ⟨smid, hstep, hrest⟩ := Option.bind_eq_some.mp hrun
    obtain ⟨hok2, hperm2⟩ := step_preserves hstep hok
    obtain ⟨hok3, hperm3⟩ := ih hrest hok2
    exact ⟨hok3, hperm3.trans hperm2⟩

/-- C1: N append tasks run concurrently against an initially empty
store, interleaved only through the shared lock.  Whatever order the
tasks acquire the lock in (any schedule that runs to completion), the
final collection is a permutation of the N scheduled schemas: exactly N
records, none lost, none based on stale data, and with N distinct ids
whenever the minted ids were distinct. -/
theorem concurrent_appends_no_lost_update (tasks : List Record)
    (sched : List StepLabel) (final : LockState)
    (hrun : run (initState tasks) sched = some final)
    (hpend : final.pending = []) (hhold : final.holder = none) :
    List.Perm (readEssaysLocked final.file) tasks ∧
    (readEssaysLocked final.file).length = tasks.length ∧
    ((tasks.map (fun r => r.process.process_id)).Nodup →
      ((readEssaysLocked final.file).map (fun r => r.process.process_id)).Nodup) := by
  have hok0 : holderOk (initState tasks) := by
    intro snap r h
    simp [initState] at h
  obtain ⟨hokf, hperm⟩ := run_preserves hrun hok0
  have hinit : collected (initState tasks) = tasks := by
    simp [collected, initState, readEssaysLocked]
  have hfin : collected final = readEssaysLocked final.file := by
    simp [collected, hpend, hhold]
  rw [hinit, hfin] at hperm
  refine ⟨hperm, hperm.length_eq, fun hnd => ?_⟩
  exact ((hperm.map (fun r => r.process.process_id)).nodup_iff).mpr hnd

/-- A scores dict with every key absent (build_schema then uses its
defaults). -/
def demoScores : Scores := ⟨none, none, none, none⟩

/-- A concrete record, as built by one completed background run. -/
def demoRecordA : Record :=
  buildSchema "나는 친구의 의견을 존중하고 싶다." "피드백 초안" "성취기준 설명" "추천 수정본"
    demoScores "성취 기준" "지문 설명" "2024-01-01T00:00:00Z" "20240101_000000" "aaaaaa" "aaaaaaaa"

/-- A second concrete record with a different minted id. -/
def demoRecordB : Record :=
  buildSchema "두 번째 학생 글" "피드백" "설명" "수정"
    demoScores "성취 기준" "지문 설명" "2024-01-01T00:00:01Z" "20240101_000001" "bbbbbb" "bbbbbbbb"

/-- C2: append is one atomic read-append-write.  First, functionally:
whatever the store holds, append leaves exactly the old collection with
the new record at the end (in particular, on a store persisting c it
writes back c with r appended).  Second, in the lock model: an append
task that acquires the free lock reads the collection at that moment and
its release writes that same snapshot plus its record — the state is
re-read under the lock, never taken from before acquisition. -/
theorem append_is_atomic_read_modify_write :
    (∀ (s : FileState Record) (r : Record),
      readEssaysLocked (appendEssaySafe s r) = readEssaysLocked s ++ [r]) ∧
    (∀ (c : List Record) (r : Record),
      appendEssaySafe (writeEssaysLocked c) r = writeEssaysLocked (c ++ [r])) ∧
    (∀ (st : LockState) (r : Record), st.holder = none → r ∈ st.pending →
      run st [.acquire r, .release] = some
        ⟨writeEssaysLocked (readEssaysLocked st.file ++ [r]), st.pending.erase r, none⟩) := by
  refine ⟨fun s r => rfl, fun c r => rfl, ?_⟩
  intro st r h1 h2
  simp [run, step, if_pos (And.intro h1 h2)]

theorem append_is_atomic_witness :
    readEssaysLocked (appendEssaySafe (writeEssaysLocked [demoRecordA]) demoRecordB) =
      readEssaysLocked (writeEssaysLocked [demoRecordA]) ++ [demoRecordB] ∧
    run ⟨.missing, [demoRecordA], none⟩ [.acquire demoRecordA, .release] = some
      ⟨writeEssaysLocked (readEssaysLocked (.missing : FileState Record) ++ [demoRecordA]),
        ([demoRecordA] : List Record).erase demoRecordA, none⟩ :=
  ⟨append_is_atomic_read_modify_write.1 (writeEssaysLocked [demoRecordA]) demoRecordB,
   append_is_atomic_read_modify_write.2.2 ⟨.missing, [demoRecordA], none⟩ demoRecordA rfl
     (List.Mem.head _)⟩

theorem concurrent_appends_witness :
    List.Perm
      (readEssaysLocked
        ((⟨writeEssaysLocked [demoRecordB, demoRecordA], [], none⟩ : LockState).file))
      [demoRecordA, demoRecordB] ∧
    (readEssaysLocked
        ((⟨writeEssaysLocked [demoRecordB, demoRecordA], [], none⟩ : LockState).file)).length =
      ([demoRecordA, demoRecordB] : List Record).length ∧
    ((([demoRecordA, demoRecordB] : List Record).map (fun r => r.process.process_id)).Nodup →
      ((readEssaysLocked
          ((⟨writeEssaysLocked [demoRecordB, demoRecordA], [], none⟩ : LockState).file)).map
        (fun r => r.process.process_id)).Nodup) :=
  concurrent_appends_no_lost_update [demoRecordA, demoRecordB]
    [.acquire demoRecordB, .release, .acquire demoRecordA, .release]
    ⟨writeEssaysLocked [demoRecordB, demoRecordA], [], none⟩ rfl rfl rfl

theorem findEssayIdx_eq_none {pid : String} {l : List Record}
    (h : ∀ r ∈ l, r.process.process_id ≠ pid) : findEssayIdx pid l = none := by
  induction l with
  | nil => rfl
  | cons e rest ih =>
    simp only [findEssayIdx]
    rw [if_neg (h e (List.mem_cons_self e rest)),
      ih (fun r hr => h r (List.mem_cons_of_mem e hr))]
    rfl

/-- C4: approve with a non-empty final feedback on an id that matches no
record in the collection reports notFound and writes nothing: the store
comes back unchanged, same length and same contents. -/
theorem approve_unknown_id_not_found (pid : String) (fb lf : Option String)
    (now : String) (s : FileState Record)
    (hpid : pid ≠ "") (hfb : pyStrip (fb.getD "") ≠ "")
    (hnomatch : ∀ r ∈ readEssaysLocked s, r.process.process_id ≠ pid) :
    approveEssay (some pid) fb lf now s = (.notFound, s) := by
  simp [approveEssay, hpid, hfb, findEssayIdx_eq_none hnomatch]

theorem approve_unknown_id_witness :
    approveEssay (some "proc_unknown") (some "잘 했어요") none "2024-01-02T00:00:00Z"
      (writeEssaysLocked [demoRecordA]) =
      (.notFound, writeEssaysLocked [demoRecordA]) :=
  approve_unknown_id_not_found "proc_unknown" (some "잘 했어요") none "2024-01-02T00:00:00Z"
    (writeEssaysLocked [demoRecordA]) (by decide) (by decide) (by decide)

/-- C6: approve and markReportSent are idempotent in effect: re-invoking
either with the same arguments on any record (no guard stops approving
an already completed one) reproduces exactly the state a single
invocation at the later time yields — only the timestamps refresh. -/
theorem approve_and_send_report_idempotent (r : Record)
    (fb lf now1 now2 : String) (rt : ReportType) :
    approveMutate now2 fb lf (approveMutate now1 fb lf r) = approveMutate now2 fb lf r ∧
    sendReportMutate rt now2 (sendReportMutate rt now1 r) = sendReportMutate rt now2 r := by
  obtain ⟨meta, lc, proc, se, ev, af, tc, lfb, rs⟩ := r
  constructor
  · cases af <;> rfl
  · cases rs <;> cases rt <;> rfl

/-- C7: marking the student report sent on any existing record sets the
student_sent flag, stamps its timestamp, leaves the parent_sent flag
exactly as it was, and leaves the lifecycle status untouched; and
send_report applies exactly this mutation to the record located by id. -/
theorem send_report_student_sets_flag_only (r : Record) (now : String) :
    studentReportSent (sendReportMutate .student now r) = some true ∧
    studentReportSentAt (sendReportMutate .student now r) = some now ∧
    parentReportSent (sendReportMutate .student now r) = parentReportSent r ∧
    (sendReportMutate .student now r).process.status = r.process.status ∧
    (∀ (pid : String) (s : FileState Record) (i : Nat), pid ≠ "" →
      findEssayIdx pid (readEssaysLocked s) = some i →
      sendReport (some pid) (some "student") now s =
        (.sent pid, writeEssaysLocked
          (modifyIdx (sendReportMutate .student now) i (readEssaysLocked s)))) := by
  refine ⟨rfl, rfl, ?_, rfl, ?_⟩
  · cases hrs : r.report_status <;> simp [parentReportSent, sendReportMutate, hrs]
  · intro pid s i hpid hfind
    have hpt : parseReportType (some "student") = some ReportType.student := rfl
    simp [sendReport, hpid, hpt, hfind]

theorem send_report_student_witness :
    studentReportSent (sendReportMutate .student "2024-01-02T00:00:00Z" demoRecordA) =
      some true ∧
    parentReportSent (sendReportMutate .student "2024-01-02T00:00:00Z" demoRecordA) =
      parentReportSent demoRecordA ∧
    (sendReportMutate .student "2024-01-02T00:00:00Z" demoRecordA).process.status =
      demoRecordA.process.status ∧
    sendReport (some "proc_20240101_000000_aaaaaa") (some "student") "2024-01-02T00:00:00Z"
      (writeEssaysLocked [demoRecordA]) =
      (.sent "proc_20240101_000000_aaaaaa", writeEssaysLocked
        (modifyIdx (sendReportMutate .student "2024-01-02T00:00:00Z") 0 [demoRecordA])) :=
  ⟨(send_report_student_sets_flag_only demoRecordA "2024-01-02T00:00:00Z").1,
   (send_report_student_sets_flag_only demoRecordA "2024-01-02T00:00:00Z").2.2.1,
   (send_report_student_sets_flag_only demoRecordA "2024-01-02T00:00:00Z").2.2.2.1,
   (send_report_student_sets_flag_only demoRecordA "2024-01-02T00:00:00Z").2.2.2.2
     "proc_20240101_000000_aaaaaa" (writeEssaysLocked [demoRecordA]) 0 (by decide) rfl⟩

/-- C9: submit rejects empty (or absent, or whitespace-only) text with
the validation error, scheduling nothing and leaving the store alone;
on non-empty text it mints the process id, returns it at once together
with the still-unexecuted background task carrying that same id, again
leaving the store untouched. -/
theorem submit_validates_and_schedules (text : Option String) (ts u : String)
    (s : FileState Record) :
    (pyStrip (text.getD "") = "" → submit text ts u s = (.emptyText, s)) ∧
    (pyStrip (text.getD "") ≠ "" →
      submit text ts u s =
        (.accepted (mkProcessId ts u)
          { text := pyStrip (text.getD ""), process_id := mkProcessId ts u }, s)) := by
  constructor
  · intro h; simp [submit, h]
  · intro h; simp [submit, h]

theorem submit_validates_witness :
    submit (some "   ") "20240101_000000" "abcdef" .missing = (.emptyText, .missing) ∧
    submit (some "나는 친구의 의견을 존중하고 싶다.") "20240101_000000" "abcdef" .missing =
      (.accepted (mkProcessId "20240101_000000" "abcdef")
        { text := "나는 친구의 의견을 존중하고 싶다."
          process_id := mkProcessId "20240101_000000" "abcdef" }, .missing) :=
  ⟨(submit_validates_and_schedules (some "   ") "20240101_000000" "abcdef" .missing).1
     (by decide),
   (submit_validates_and_schedules (some "나는 친구의 의견을 존중하고 싶다.")
     "20240101_000000" "abcdef" .missing).2 (by decide)⟩

theorem filter_pid_eq_nil (pid : String) (l : List Record)
    (hl : ∀ r ∈ l, r.process.process_id ≠ pid) :
    l.filter (fun r => r.process.process_id == pid) = [] := by
  induction l with
  | nil => rfl
  | cons e rest ih =>
    have he : (e.process.process_id == pid) = false := by
      simp [hl e (List.mem_cons_self e rest)]
    simp [List.filter_cons, he, ih (fun r hr => hl r (List.mem_cons_of_mem e hr))]

/-- C3: after the background task for the id handed out by submit
completes successfully against a store that has never seen that id, the
collection contains exactly one record carrying that id, and that record
is in the initial drafted state that build_schema stamps at append
time. -/
theorem background_completion_one_drafted_record (text : Option String)
    (ts0 u0 : String) (s0 : FileState Record) (pid : String) (task : BackgroundTask)
    (crit : String × String) (enr : Enrichment) (now ts u6 u8 : String)
    (s : FileState Record)
    (hsub : submit text ts0 u0 s0 = (.accepted pid task, s0))
    (hfresh : ∀ r ∈ readEssaysLocked s, r.process.process_id ≠ pid) :
    ((readEssaysLocked (processEssayInBackground task crit (some enr) now ts u6 u8 s)).filter
        (fun r => r.process.process_id == pid)).length = 1 ∧
    ∀ r ∈ readEssaysLocked (processEssayInBackground task crit (some enr) now ts u6 u8 s),
      r.process.process_id = pid → r.process.status = draftedStatus := by
  by_cases ht : pyStrip (text.getD "") = ""
  · exact absurd hsub (by simp [submit, ht])
  · have hsub2 := hsub
    simp only [submit, if_neg ht, Prod.mk.injEq, SubmitResult.accepted.injEq] at hsub2
    obtain ⟨⟨hpid2, htask⟩, -⟩ := hsub2
    have htp : task.process_id = pid := by rw [← htask]; exact hpid2
    have hread : readEssaysLocked (processEssayInBackground task crit (some enr) now ts u6 u8 s)
        = readEssaysLocked s ++ [backgroundSchema task crit enr now ts u6 u8] := rfl
    have hx : (backgroundSchema task crit enr now ts u6 u8).process.process_id = pid := htp
    constructor
    · rw [hread, List.filter_append, filter_pid_eq_nil pid _ hfresh]
      simp [hx]
    · rw [hread]
      intro r hr hrpid
      rcases List.mem_append.mp hr with hmem | hmem
      · exact absurd hrpid (hfresh r hmem)
      · have hr2 : r = backgroundSchema task crit enr now ts u6 u8 := by simpa using hmem
        rw [hr2]
        rfl

theorem background_completion_witness :
    ((readEssaysLocked (processEssayInBackground
          ⟨"나는 친구의 의견을 존중하고 싶다.", mkProcessId "20240101_000000" "abcdef"⟩
          ("성취 기준", "지문 설명") (some ⟨"피드백", "설명", "수정본", demoScores⟩)
          "2024-01-01T00:00:00Z" "20240101_000000" "cccccc" "dddddddd" .missing)).filter
        (fun r => r.process.process_id == mkProcessId "20240101_000000" "abcdef")).length = 1 ∧
    ∀ r ∈ readEssaysLocked (processEssayInBackground
        ⟨"나는 친구의 의견을 존중하고 싶다.", mkProcessId "20240101_000000" "abcdef"⟩
        ("성취 기준", "지문 설명") (some ⟨"피드백", "설명", "수정본", demoScores⟩)
        "2024-01-01T00:00:00Z" "20240101_000000" "cccccc" "dddddddd" .missing),
      r.process.process_id = mkProcessId "20240101_000000" "abcdef" →
      r.process.status = draftedStatus :=
  background_completion_one_drafted_record
    (some "나는 친구의 의견을 존중하고 싶다.") "20240101_000000" "abcdef" .missing
    (mkProcessId "20240101_000000" "abcdef")
    ⟨"나는 친구의 의견을 존중하고 싶다.", mkProcessId "20240101_000000" "abcdef"⟩
    ("성취 기준", "지문 설명") ⟨"피드백", "설명", "수정본", demoScores⟩
    "2024-01-01T00:00:00Z" "20240101_000000" "cccccc" "dddddddd" .missing
    rfl (by simp [readEssaysLocked])

theorem string_data_append (s t : String) : (s ++ t).data = s.data ++ t.data := by
  cases s
  cases t
  rfl

theorem string_eq_of_data {s t : String} (h : s.data = t.data) : s = t := by
  cases s
  cases t
  exact congrArg String.mk h

theorem mkProcessId_inj (t1 u1 t2 u2 : String) (hlen : t1.length = t2.length)
    (h : mkProcessId t1 u1 = mkProcessId t2 u2) : t1 = t2 ∧ u1 = u2 := by
  unfold mkProcessId at h
  have hd : ("proc_" ++ t1 ++ "_" ++ u1).data = ("proc_" ++ t2 ++ "_" ++ u2).data := by rw [h]
  simp only [string_data_append, List.append_assoc] at hd
  have hd2 := List.append_cancel_left hd
  have hlen2 : t1.data.length = t2.data.length := hlen
  obtain ⟨ht, hu⟩ := List.append_inj hd2 hlen2
  have hu2 := List.append_cancel_left hu
  exact ⟨string_eq_of_data ht, string_eq_of_data hu2⟩

/-- C5: submit on valid text returns the freshly minted process id,
which differs from every previously issued id as long as the clock/uuid
pairs that minted them differ (the ids are forced apart purely by
construction of the proc_ string, whose timestamp part has fixed length
15); and no operation checks uniqueness — append grows the collection
unconditionally whatever id the new record carries. -/
theorem submit_mints_fresh_id (text : Option String) (ts u : String)
    (s : FileState Record) (issued : List (String × String))
    (hts : ts.length = 15)
    (hissued : ∀ p ∈ issued, (p : String × String).1.length = 15)
    (hfresh : (ts, u) ∉ issued)
    (htext : pyStrip (text.getD "") ≠ "") :
    (submit text ts u s).1 =
      .accepted (mkProcessId ts u)
        { text := pyStrip (text.getD ""), process_id := mkProcessId ts u } ∧
    mkProcessId ts u ∉ issued.map (fun p => mkProcessId p.1 p.2) ∧
    ∀ (s2 : FileState Record) (r : Record),
      (readEssaysLocked (appendEssaySafe s2 r)).length = (readEssaysLocked s2).length + 1 := by
  refine ⟨by simp [submit, htext], ?_, ?_⟩
  · intro hmem
    obtain ⟨p, hp, heq⟩ := List.mem_map.mp hmem
    obtain ⟨h1, h2⟩ := mkProcessId_inj p.1 p.2 ts u (by rw [hissued p hp, hts]) heq
    have hpair : (ts, u) = p := by
      cases p
      simp_all
    exact hfresh (hpair ▸ hp)
  · intro s2 r
    simp [appendEssaySafe, writeEssaysLocked, readEssaysLocked]

theorem submit_mints_fresh_id_witness :
    (submit (some "나는 친구의 의견을 존중하고 싶다.") "20240101_000000" "abcdef" .missing).1 =
      .accepted (mkProcessId "20240101_000000" "abcdef")
        { text := "나는 친구의 의견을 존중하고 싶다."
          process_id := mkProcessId "20240101_000000" "abcdef" } ∧
    mkProcessId "20240101_000000" "abcdef" ∉
      ([("20240101_000000", "000000"), ("20240102_000000", "abcdef")].map
        (fun p => mkProcessId p.1 p.2)) ∧
    ∀ (s2 : FileState Record) (r : Record),
      (readEssaysLocked (appendEssaySafe s2 r)).length = (readEssaysLocked s2).length + 1 :=
  submit_mints_fresh_id (some "나는 친구의 의견을 존중하고 싶다.") "20240101_000000" "abcdef"
    .missing [("20240101_000000", "000000"), ("20240102_000000", "abcdef")]
    (by decide) (by decide) (by decide) (by decide)

end AiCoaching
